import Mathlib

/-!
Verification development for the MicroSafari ESP32 connectivity library
(`src/MicroSafari.h`, `MicroSafari.cpp`).  The library's state machine,
failure tracker, heartbeat scheduler and HTTP retry engine are embedded
shallowly as pure Lean functions over an explicit state record; the
external collaborators (WiFi stack, HTTP client, clock) are modelled as
environment records supplying the values the code observes.  Machine
`unsigned long` arithmetic (millis timestamps) is modelled on `Nat` with
explicit wraparound modulo `2^32`; C++ `int` counters are modelled as
`Int`.
-/

/-- Width of the `unsigned long` type on the target (32 bits): millis()
subtraction in the source wraps modulo this value. -/
def U32 : Nat := 2 ^ 32

/-- Unsigned 32-bit subtraction `now - last` as computed by the C++
expressions `millis() - _lastConnectionAttempt`, `millis() - _lastHeartbeat`.
For `last ≤ now < 2^32` this equals `now - last`. -/
def elapsed (now last : Nat) : Nat := (U32 + now - last) % U32

/-- Connection status enumeration (`MicroSafariStatus` in MicroSafari.h,
values 0..4). -/
inductive MicroSafariStatus where
  | MICROSAFARI_DISCONNECTED
  | MICROSAFARI_WIFI_CONNECTING
  | MICROSAFARI_WIFI_CONNECTED
  | MICROSAFARI_PLATFORM_CONNECTED
  | MICROSAFARI_ERROR
deriving DecidableEq, Repr

/-- HTTP response structure (`MicroSafariResponse` in MicroSafari.h). -/
structure MicroSafariResponse where
  httpCode : Int
  payload : String
  success : Bool
  errorMessage : String
deriving DecidableEq, Repr

/-- Mutable fields of the `MicroSafari` class (MicroSafari.h private
section).  String configuration fields that no verified operation reads
(ssid, password, apiKey, platformUrl, deviceName) are omitted; the
timing/counter/state fields are all present. -/
structure MicroSafariState where
  status : MicroSafariStatus
  lastConnectionAttempt : Nat
  connectionTimeout : Nat
  maxRetries : Int
  retryDelay : Nat
  lastHeartbeat : Nat
  heartbeatInterval : Nat
  consecutiveFailures : Int
  maxConsecutiveFailures : Int
  lastErrorTime : Nat
  lastErrorMessage : String
  autoReconnect : Bool
  debug : Bool
deriving DecidableEq, Repr

/-- Constructor defaults (MicroSafari.cpp lines 13-27). -/
def initialState : MicroSafariState where
  status := .MICROSAFARI_DISCONNECTED
  lastConnectionAttempt := 0
  connectionTimeout := 30000
  maxRetries := 3
  retryDelay := 2000
  lastHeartbeat := 0
  heartbeatInterval := 300000
  consecutiveFailures := 0
  maxConsecutiveFailures := 5
  lastErrorTime := 0
  lastErrorMessage := ""
  autoReconnect := true
  debug := false

/-- Reset connection state (MicroSafari.cpp lines 357-374).  The WiFi
disconnect / mode calls act only on the external collaborator; the
internal-state effect is the three assignments below. -/
def resetConnectionState (s : MicroSafariState) : MicroSafariState :=
  { s with status := .MICROSAFARI_DISCONNECTED
           consecutiveFailures := 0
           lastConnectionAttempt := 0 }

/-- Handle connection failure (MicroSafari.cpp lines 341-352).  `now` is
the value of `millis()` at the call. -/
def handleConnectionFailure (s : MicroSafariState) (errorMessage : String)
    (now : Nat) : MicroSafariState :=
  let s1 := { s with consecutiveFailures := s.consecutiveFailures + 1
                     lastErrorTime := now
                     lastErrorMessage := errorMessage }
  if s1.maxConsecutiveFailures ≤ s1.consecutiveFailures then
    resetConnectionState s1
  else
    s1

/-- Clear error history (MicroSafari.cpp lines 446-451). -/
def clearErrors (s : MicroSafariState) : MicroSafariState :=
  { s with consecutiveFailures := 0, lastErrorTime := 0, lastErrorMessage := "" }

/-- Heartbeat-due predicate (MicroSafari.cpp lines 716-718):
`(millis() - _lastHeartbeat) > _heartbeatInterval`. -/
def needsHeartbeat (s : MicroSafariState) (now : Nat) : Bool :=
  s.heartbeatInterval < elapsed now s.lastHeartbeat

/-- Platform-active query (MicroSafari.cpp lines 329-336). -/
def isPlatformActive (s : MicroSafariState) (wifiConnected : Bool) (now : Nat) : Bool :=
  if wifiConnected = false then false
  else elapsed now s.lastHeartbeat < s.heartbeatInterval * 2

/-- Environment observed by one `connectWiFi` call: `startTime` is
`millis()` at entry (stored into `_lastConnectionAttempt`), `connects`
tells whether `WiFi.status() == WL_CONNECTED` held when the wait loop
exited, `statusCode` is the `WiFi.status()` value reported on failure and
`failTime` is `millis()` inside the failure handler. -/
structure WifiEnv where
  startTime : Nat
  connects : Bool
  statusCode : Int
  failTime : Nat

/-- WiFi connection attempt (MicroSafari.cpp lines 88-126).  Returns the
boolean result together with the updated state. -/
def connectWiFi (env : WifiEnv) (s : MicroSafariState) : Bool × MicroSafariState :=
  let s := { s with status := .MICROSAFARI_WIFI_CONNECTING
                    lastConnectionAttempt := env.startTime }
  if env.connects = true then
    let s := { s with status := .MICROSAFARI_WIFI_CONNECTED }
    let s := if 0 < s.consecutiveFailures then { s with consecutiveFailures := 0 } else s
    (true, s)
  else
    let s := { s with status := .MICROSAFARI_ERROR }
    let errorMsg := "WiFi connection failed (status: " ++ toString env.statusCode ++ ")"
    (false, handleConnectionFailure s errorMsg env.failTime)

/-- Environment observed by one `performHttpRequest` call: per-attempt
HTTP result codes and response bodies (attempts numbered from 1), the
`millis()` reading taken right after each attempt, and the `millis()`
reading taken if all retries are exhausted. -/
structure HttpEnv where
  attemptCode : Nat → Int
  attemptBody : Nat → String
  attemptTime : Nat → Nat
  exhaustTime : Nat

/-- Outcome of one `performHttpRequest` call: the returned response, the
post-state, the number of POST attempts issued, and the number of times
`delay(_retryDelay)` executed. -/
structure HttpOutcome where
  response : MicroSafariResponse
  state : MicroSafariState
  attempts : Nat
  delays : Nat
deriving Repr

/-- Retry loop of `performHttpRequest` (MicroSafari.cpp lines 621-682).
The C++ `while (attempts < _maxRetries)` loop is driven here by the fuel
argument, maintained equal to `(_maxRetries - attempts).toNat`, so the
branch `attempts < _maxRetries` after the increment is `0 < fuel`.
`code`/`body` carry the response fields of the most recent attempt
(`response.httpCode` starts at 0 per line 611, matching a run with no
attempts). -/
def httpAttempts (env : HttpEnv) (s : MicroSafariState) :
    Nat → Nat → Int → String → Nat → HttpOutcome
  | 0, attempts, code, body, delays =>
      let msg :=
        if code = 503 then "Service unavailable - development mode"
        else if code ≤ 0 then "Network error - check connection"
        else "Server error (HTTP " ++ toString code ++ ") - all retries exhausted"
      { response := { httpCode := code, payload := body, success := false, errorMessage := msg }
        state := handleConnectionFailure s msg env.exhaustTime
        attempts := attempts
        delays := delays }
  | fuel + 1, attempts, _code, _body, delays =>
      let a := attempts + 1
      let code := env.attemptCode a
      let body := env.attemptBody a
      if code = 201 ∨ code = 200 then
        { response := { httpCode := code, payload := body, success := true, errorMessage := "" }
          state := { s with lastHeartbeat := env.attemptTime a }
          attempts := a
          delays := delays }
      else if code = 401 then
        { response := { httpCode := code, payload := body, success := false
                        errorMessage := "Authentication failed - check API key" }
          state := s, attempts := a, delays := delays }
      else if code = 400 then
        { response := { httpCode := code, payload := body, success := false
                        errorMessage := "Invalid data format" }
          state := s, attempts := a, delays := delays }
      else
        httpAttempts env s fuel a code body (if 0 < fuel then delays + 1 else delays)

/-- HTTP request with retry logic (MicroSafari.cpp lines 606-683).
`wifi` is the `isWiFiConnected()` value observed at entry. -/
def performHttpRequest (wifi : Bool) (env : HttpEnv) (s : MicroSafariState) : HttpOutcome :=
  if wifi = false then
    { response := { httpCode := 0, payload := "", success := false
                    errorMessage := "WiFi not connected" }
      state := s, attempts := 0, delays := 0 }
  else
    httpAttempts env s s.maxRetries.toNat 0 0 "" 0

/-- Heartbeat submission (MicroSafari.cpp lines 723-753): builds the
heartbeat body and routes it through `performHttpRequest`; returns the
success flag and the post-state. -/
def sendHeartbeat (wifi : Bool) (env : HttpEnv) (s : MicroSafariState) :
    Bool × MicroSafariState :=
  let o := performHttpRequest wifi env s
  (o.response.success, o.state)

/-- Environment observed by one `loop()` call: `now1`/`now3` are the
`millis()` readings at the two backoff checks, `connect1`/`connect2` the
environments of the (up to two) `connectWiFi` calls, `hbEnv` the HTTP
environment of a heartbeat submission, `hbNow` the `millis()` reading at
the `needsHeartbeat` check and `hbFailTime` the reading inside the
"Heartbeat failed" failure handler.  WiFi connectivity is `wifi0` until a
`connectWiFi` call occurs and thereafter equals that call's result. -/
structure LoopEnv where
  now1 : Nat
  connect1 : WifiEnv
  hbEnv : HttpEnv
  hbNow : Nat
  hbFailTime : Nat
  now3 : Nat
  connect2 : WifiEnv

/-- Result of the first block of `loop()` (MicroSafari.cpp lines 542-547):
current connectivity, state, and whether this block called `connectWiFi`. -/
structure LoopStage1 where
  wifi : Bool
  state : MicroSafariState
  block1Called : Bool

/-- Outcome of one `loop()` call: post-state, connectivity on exit, which
of the two reconnect sites fired, and the total `connectWiFi` call count. -/
structure LoopResult where
  state : MicroSafariState
  wifiAfter : Bool
  block1Called : Bool
  block3Called : Bool
  connectCalls : Nat
deriving Repr

/-- Loop block 1, the fixed-interval WiFi reconnect check (MicroSafari.cpp
lines 542-547). -/
def loopReconnectCheck (env : LoopEnv) (wifi0 : Bool) (s : MicroSafariState) : LoopStage1 :=
  if wifi0 = false ∧ s.status ≠ MicroSafariStatus.MICROSAFARI_WIFI_CONNECTING then
    if 30000 < elapsed env.now1 s.lastConnectionAttempt then
      let r := connectWiFi env.connect1 s
      { wifi := r.1, state := r.2, block1Called := true }
    else
      { wifi := wifi0, state := s, block1Called := false }
  else
    { wifi := wifi0, state := s, block1Called := false }

/-- Loop block 2, status reconciliation (MicroSafari.cpp lines 550-554). -/
def loopStatusUpdate (wifi : Bool) (s : MicroSafariState) : MicroSafariState :=
  if wifi = true ∧ s.status = MicroSafariStatus.MICROSAFARI_WIFI_CONNECTING then
    { s with status := .MICROSAFARI_WIFI_CONNECTED }
  else if wifi = false ∧ s.status ≠ MicroSafariStatus.MICROSAFARI_WIFI_CONNECTING then
    { s with status := .MICROSAFARI_DISCONNECTED }
  else
    s

/-- Loop heartbeat block (MicroSafari.cpp lines 557-568). -/
def loopHeartbeatStep (env : LoopEnv) (wifi : Bool) (s : MicroSafariState) : MicroSafariState :=
  if wifi = true ∧ needsHeartbeat s env.hbNow = true then
    let hb := sendHeartbeat wifi env.hbEnv s
    if hb.1 = false then
      handleConnectionFailure hb.2 "Heartbeat failed" env.hbFailTime
    else if 0 < hb.2.consecutiveFailures then
      { hb.2 with consecutiveFailures := 0 }
    else
      hb.2
  else
    s

/-- Loop block 3, the auto-reconnect site with failure-scaled backoff
(MicroSafari.cpp lines 571-576).  The C++ comparison promotes the `int`
expression `30000 + _consecutiveFailures * 10000` to `unsigned long`; all
reachable states have `consecutiveFailures ≥ 0`, where that promotion is
value-preserving, so the comparison is modelled on `Int`. -/
def loopAutoReconnect (env : LoopEnv) (wifi : Bool) (b1 : Bool)
    (s : MicroSafariState) : LoopResult :=
  if s.autoReconnect = true ∧ wifi = false ∧
      s.status = MicroSafariStatus.MICROSAFARI_DISCONNECTED then
    if (30000 : Int) + s.consecutiveFailures * 10000 <
        (elapsed env.now3 s.lastConnectionAttempt : Int) then
      let r := connectWiFi env.connect2 s
      { state := r.2, wifiAfter := r.1, block1Called := b1, block3Called := true
        connectCalls := (if b1 = true then 1 else 0) + 1 }
    else
      { state := s, wifiAfter := wifi, block1Called := b1, block3Called := false
        connectCalls := if b1 = true then 1 else 0 }
  else
    { state := s, wifiAfter := wifi, block1Called := b1, block3Called := false
      connectCalls := if b1 = true then 1 else 0 }

/-- Main loop function (MicroSafari.cpp lines 540-577), composing the four
blocks in source order. -/
def loop (env : LoopEnv) (wifi0 : Bool) (s : MicroSafariState) : LoopResult :=
  let p1 := loopReconnectCheck env wifi0 s
  let s2 := loopStatusUpdate p1.wifi p1.state
  let s3 := loopHeartbeatStep env p1.wifi s2
  loopAutoReconnect env p1.wifi p1.block1Called s3

/-- Structured JSON documents as produced by the external JSON
collaborator (ArduinoJson): a tagged tree of objects, arrays, strings,
integers, booleans and null. -/
inductive JsonVal where
  | null
  | bool (b : Bool)
  | num (n : Int)
  | str (s : String)
  | arr (elems : List JsonVal)
  | obj (fields : List (String × JsonVal))
deriving Repr

/-- Top-level key-presence test, as `JsonDocument::containsKey` behaves on
a deserialized document: true exactly when the root is an object with a
member of the given name. -/
def jsonContainsKey (j : JsonVal) (key : String) : Bool :=
  match j with
  | .obj fields => fields.any (fun f => f.1 = key)
  | _ => false

/-- JSON payload validation (MicroSafari.cpp lines 688-711), parameterised
by the external JSON collaborator's parse function (`deserializeJson`):
reject the empty string, reject parse failures, reject documents without
the top-level "payload" member, accept everything else. -/
def validateJsonPayload (parse : String → Option JsonVal) (jsonPayload : String) : Bool :=
  if jsonPayload.isEmpty then false
  else
    match parse jsonPayload with
    | none => false
    | some doc => if jsonContainsKey doc "payload" = false then false else true

/-- Lower-case a string character by character. -/
def strLower (s : String) : String := String.mk (s.data.map Char.toLower)

/-- Whether the second character list is an initial segment of the first. -/
def charsStartsWith : List Char → List Char → Bool
  | _, [] => true
  | [], _ :: _ => false
  | c :: cs, d :: ds => if c = d then charsStartsWith cs ds else false

/-- Whether the second character list occurs contiguously in the first. -/
def charsContains : List Char → List Char → Bool
  | [], needle => needle.isEmpty
  | c :: cs, needle => charsStartsWith (c :: cs) needle || charsContains cs needle

/-- Substring test: `strContains hay needle` is true when `needle` occurs
contiguously in `hay`. -/
def strContains (hay needle : String) : Bool := charsContains hay.data needle.data

/-- Skip JSON whitespace. -/
def skipWs : List Char → List Char
  | [] => []
  | c :: cs => if c = ' ' ∨ c = '\n' ∨ c = '\t' ∨ c = '\r' then skipWs cs else c :: cs

/-- Read the characters of a JSON string up to the closing quote
(escape sequences are not needed by the documents considered here). -/
def readStringChars : List Char → Option (List Char × List Char)
  | [] => none
  | c :: cs =>
      if c = '\"' then some ([], cs)
      else
        match readStringChars cs with
        | some (acc, rest) => some (c :: acc, rest)
        | none => none

/-- Split a leading run of decimal digits off a character list. -/
def takeDigits : List Char → List Char × List Char
  | [] => ([], [])
  | c :: cs =>
      if c.isDigit then
        let p := takeDigits cs
        (c :: p.1, p.2)
      else
        ([], c :: cs)

/-- Numeric value of a digit run. -/
def digitsVal (ds : List Char) : Nat :=
  ds.foldl (fun acc c => acc * 10 + (c.toNat - 48)) 0

mutual

/-- Fuel-driven recursive-descent parser for JSON values: a concrete
executable instance of the external JSON collaborator's parse operation,
used to exercise `validateJsonPayload` on concrete documents. -/
def parseVal : Nat → List Char → Option (JsonVal × List Char)
  | 0, _ => none
  | fuel + 1, input =>
      match skipWs input with
      | [] => none
      | c :: cs =>
          if c = '\x7b' then
            match skipWs cs with
            | [] => none
            | d :: ds =>
                if d = '\x7d' then some (.obj [], ds)
                else
                  match parseMembers fuel (d :: ds) with
                  | some (fields, rest) => some (.obj fields, rest)
                  | none => none
          else if c = '[' then
            match skipWs cs with
            | [] => none
            | d :: ds =>
                if d = ']' then some (.arr [], ds)
                else
                  match parseElems fuel (d :: ds) with
                  | some (elems, rest) => some (.arr elems, rest)
                  | none => none
          else if c = '\"' then
            match readStringChars cs with
            | some (str, rest) => some (.str (String.mk str), rest)
            | none => none
          else if c = 't' then
            match cs with
            | 'r' :: 'u' :: 'e' :: rest => some (.bool true, rest)
            | _ => none
          else if c = 'f' then
            match cs with
            | 'a' :: 'l' :: 's' :: 'e' :: rest => some (.bool false, rest)
            | _ => none
          else if c = 'n' then
            match cs with
            | 'u' :: 'l' :: 'l' :: rest => some (.null, rest)
            | _ => none
          else if c = '-' then
            let p := takeDigits cs
            if p.1.isEmpty then none
            else some (.num (-(digitsVal p.1 : Int)), p.2)
          else if c.isDigit then
            let p := takeDigits (c :: cs)
            some (.num (digitsVal p.1 : Int), p.2)
          else none

/-- Parse the members of a JSON object after its opening brace. -/
def parseMembers : Nat → List Char → Option (List (String × JsonVal) × List Char)
  | 0, _ => none
  | fuel + 1, input =>
      match skipWs input with
      | [] => none
      | c :: cs =>
          if c = '\"' then
            match readStringChars cs with
            | some (key, rest1) =>
                match skipWs rest1 with
                | ':' :: rest2 =>
                    match parseVal fuel rest2 with
                    | some (v, rest3) =>
                        match skipWs rest3 with
                        | ',' :: rest4 =>
                            match parseMembers fuel rest4 with
                            | some (fields, rest5) =>
                                some ((String.mk key, v) :: fields, rest5)
                            | none => none
                        | d :: rest4 =>
                            if d = '\x7d' then some ([(String.mk key, v)], rest4)
                            else none
                        | [] => none
                    | none => none
                | _ => none
            | none => none
          else none

/-- Parse the elements of a JSON array after its opening bracket. -/
def parseElems : Nat → List Char → Option (List JsonVal × List Char)
  | 0, _ => none
  | fuel + 1, input =>
      match parseVal fuel input with
      | some (v, rest1) =>
          match skipWs rest1 with
          | ',' :: rest2 =>
              match parseElems fuel rest2 with
              | some (elems, rest3) => some (v :: elems, rest3)
              | none => none
          | d :: rest2 => if d = ']' then some ([v], rest2) else none
          | [] => none
      | none => none

end

/-- Concrete JSON collaborator: parses one JSON document, requiring only
trailing whitespace after it. -/
def miniParse (s : String) : Option JsonVal :=
  match parseVal (s.length + 8) s.data with
  | some (v, rest) => if (skipWs rest).isEmpty then some v else none
  | none => none

/-- Environment in which every POST attempt returns HTTP 200. -/
def httpEnv200 : HttpEnv where
  attemptCode := fun _ => 200
  attemptBody := fun _ => ""
  attemptTime := fun _ => 5555
  exhaustTime := 0

/-- Environment in which every POST attempt returns HTTP 500. -/
def httpEnv500 : HttpEnv where
  attemptCode := fun _ => 500
  attemptBody := fun _ => ""
  attemptTime := fun _ => 7000
  exhaustTime := 9000

/-- Environment in which every POST attempt returns HTTP 401. -/
def httpEnv401 : HttpEnv where
  attemptCode := fun _ => 401
  attemptBody := fun _ => ""
  attemptTime := fun _ => 7000
  exhaustTime := 0

/-- Environment in which every POST attempt returns HTTP 400. -/
def httpEnv400 : HttpEnv where
  attemptCode := fun _ => 400
  attemptBody := fun _ => ""
  attemptTime := fun _ => 7000
  exhaustTime := 0

/-- Environment whose first attempt suffers a transport failure (code -1)
and whose second attempt returns HTTP 201. -/
def httpEnvRetry201 : HttpEnv where
  attemptCode := fun n => if n = 1 then -1 else 201
  attemptBody := fun _ => ""
  attemptTime := fun n => 1000 * n
  exhaustTime := 0

/-- Device state after one earlier recorded failure. -/
def stateOneFailure : MicroSafariState :=
  { initialState with consecutiveFailures := 1 }

/-- Device state after two earlier recorded failures. -/
def stateTwoFailures : MicroSafariState :=
  { initialState with consecutiveFailures := 2 }

/-- Device state configured for two HTTP retries. -/
def stateTwoRetries : MicroSafariState :=
  { initialState with maxRetries := 2 }

/-- Device state one failure short of a reset threshold of three. -/
def stateNearThreshold : MicroSafariState :=
  { initialState with consecutiveFailures := 2, maxConsecutiveFailures := 3 }

/-- Device state with auto-reconnect disabled. -/
def stateNoAutoReconnect : MicroSafariState :=
  { initialState with autoReconnect := false }

/-- WiFi environment of a successful association attempt. -/
def wifiEnvOk : WifiEnv where
  startTime := 100
  connects := true
  statusCode := 3
  failTime := 0

/-- WiFi environment of a failed association attempt reporting status 1. -/
def wifiEnvFail : WifiEnv where
  startTime := 100
  connects := false
  statusCode := 1
  failTime := 150

/-- Loop environment observed 30001 ms after the last recorded connection
attempt. -/
def loopEnvLate : LoopEnv where
  now1 := 30001
  connect1 := wifiEnvFail
  hbEnv := httpEnv500
  hbNow := 0
  hbFailTime := 0
  now3 := 30001
  connect2 := wifiEnvOk

/-!
Helper lemmas shared by the claim theorems below.
-/

theorem handleConnectionFailure_cf (s : MicroSafariState) (msg : String) (now : Nat) :
    (handleConnectionFailure s msg now).consecutiveFailures =
      if s.maxConsecutiveFailures ≤ s.consecutiveFailures + 1 then 0
      else s.consecutiveFailures + 1 := by
  simp only [handleConnectionFailure, resetConnectionState]
  split_ifs with h1 <;> simp_all

theorem handleConnectionFailure_status (s : MicroSafariState) (msg : String) (now : Nat) :
    (handleConnectionFailure s msg now).status =
      if s.maxConsecutiveFailures ≤ s.consecutiveFailures + 1 then
        MicroSafariStatus.MICROSAFARI_DISCONNECTED
      else s.status := by
  simp only [handleConnectionFailure, resetConnectionState]
  split_ifs with h1 <;> simp_all

theorem handleConnectionFailure_lastErrorTime (s : MicroSafariState) (msg : String) (now : Nat) :
    (handleConnectionFailure s msg now).lastErrorTime = now := by
  simp only [handleConnectionFailure, resetConnectionState]
  split_ifs <;> rfl

theorem handleConnectionFailure_lastErrorMessage (s : MicroSafariState) (msg : String) (now : Nat) :
    (handleConnectionFailure s msg now).lastErrorMessage = msg := by
  simp only [handleConnectionFailure, resetConnectionState]
  split_ifs <;> rfl

theorem handleConnectionFailure_autoReconnect (s : MicroSafariState) (msg : String) (now : Nat) :
    (handleConnectionFailure s msg now).autoReconnect = s.autoReconnect := by
  simp only [handleConnectionFailure, resetConnectionState]
  split_ifs <;> rfl

theorem httpAttempts_autoReconnect (env : HttpEnv) (s : MicroSafariState) :
    ∀ fuel attempts code body delays,
      (httpAttempts env s fuel attempts code body delays).state.autoReconnect =
        s.autoReconnect := by
  intro fuel
  induction fuel with
  | zero =>
      intro a c b d
      simp only [httpAttempts]
      exact handleConnectionFailure_autoReconnect ..
  | succ fuel ih =>
      intro a c b d
      simp only [httpAttempts]
      split_ifs <;> first | rfl | exact ih _ _ _ _

theorem performHttpRequest_autoReconnect (wifi : Bool) (env : HttpEnv) (s : MicroSafariState) :
    (performHttpRequest wifi env s).state.autoReconnect = s.autoReconnect := by
  simp only [performHttpRequest]
  split_ifs
  · rfl
  · exact httpAttempts_autoReconnect ..

theorem connectWiFi_autoReconnect (env : WifiEnv) (s : MicroSafariState) :
    (connectWiFi env s).2.autoReconnect = s.autoReconnect := by
  simp only [connectWiFi]
  split_ifs <;> simp [handleConnectionFailure_autoReconnect]

theorem loopStatusUpdate_autoReconnect (wifi : Bool) (s : MicroSafariState) :
    (loopStatusUpdate wifi s).autoReconnect = s.autoReconnect := by
  simp only [loopStatusUpdate]
  split_ifs <;> rfl

theorem loopHeartbeatStep_autoReconnect (env : LoopEnv) (wifi : Bool) (s : MicroSafariState) :
    (loopHeartbeatStep env wifi s).autoReconnect = s.autoReconnect := by
  simp only [loopHeartbeatStep, sendHeartbeat]
  split_ifs <;>
    simp [handleConnectionFailure_autoReconnect, performHttpRequest_autoReconnect]

theorem loopReconnectCheck_autoReconnect (env : LoopEnv) (wifi0 : Bool) (s : MicroSafariState) :
    (loopReconnectCheck env wifi0 s).state.autoReconnect = s.autoReconnect := by
  simp only [loopReconnectCheck]
  split_ifs <;> simp [connectWiFi_autoReconnect]

theorem loopReconnectCheck_block1_iff (env : LoopEnv) (wifi0 : Bool) (s : MicroSafariState) :
    (loopReconnectCheck env wifi0 s).block1Called = true ↔
      (wifi0 = false ∧ s.status ≠ MicroSafariStatus.MICROSAFARI_WIFI_CONNECTING ∧
        30000 < elapsed env.now1 s.lastConnectionAttempt) := by
  simp only [loopReconnectCheck]
  split_ifs <;> simp_all

theorem loopReconnectCheck_wifi_true (env : LoopEnv) (s : MicroSafariState) :
    (loopReconnectCheck env true s).wifi = true := by
  simp only [loopReconnectCheck]
  split_ifs <;> simp_all

theorem loopAutoReconnect_b1 (env : LoopEnv) (wifi b1 : Bool) (s : MicroSafariState) :
    (loopAutoReconnect env wifi b1 s).block1Called = b1 := by
  simp only [loopAutoReconnect]
  split_ifs <;> rfl

theorem loopAutoReconnect_b3 (env : LoopEnv) (wifi b1 : Bool) (s : MicroSafariState) :
    (loopAutoReconnect env wifi b1 s).block3Called = true →
      s.autoReconnect = true ∧ wifi = false := by
  simp only [loopAutoReconnect]
  split_ifs <;> simp_all

theorem loopAutoReconnect_calls (env : LoopEnv) (wifi b1 : Bool) (s : MicroSafariState) :
    (loopAutoReconnect env wifi b1 s).connectCalls =
      (if b1 = true then 1 else 0) +
      (if (loopAutoReconnect env wifi b1 s).block3Called = true then 1 else 0) := by
  simp only [loopAutoReconnect]
  split_ifs <;> first | rfl | simp_all

theorem httpAttempts_cf (env : HttpEnv) (s : MicroSafariState) :
    ∀ fuel attempts code body delays,
      ((httpAttempts env s fuel attempts code body delays).response.success = true →
        (httpAttempts env s fuel attempts code body delays).state.consecutiveFailures =
          s.consecutiveFailures) ∧
      ((httpAttempts env s fuel attempts code body delays).state.consecutiveFailures =
          s.consecutiveFailures ∨
       ((httpAttempts env s fuel attempts code body delays).state.consecutiveFailures =
          s.consecutiveFailures + 1 ∧
        s.consecutiveFailures + 1 < s.maxConsecutiveFailures) ∨
       ((httpAttempts env s fuel attempts code body delays).state.consecutiveFailures = 0 ∧
        s.maxConsecutiveFailures ≤ s.consecutiveFailures + 1)) := by
  intro fuel
  induction fuel with
  | zero =>
      intro a c b d
      simp only [httpAttempts]
      constructor
      · intro h; simp at h
      · rw [handleConnectionFailure_cf]
        split_ifs with h <;> omega
  | succ fuel ih =>
      intro a c b d
      simp only [httpAttempts]
      split_ifs <;>
        first
          | exact ⟨fun _ => rfl, Or.inl rfl⟩
          | exact ih _ _ _ _

theorem httpAttempts_fatal_state (env : HttpEnv) (s : MicroSafariState) :
    ∀ fuel attempts code body delays, ¬ code = 400 → ¬ code = 401 →
      ((httpAttempts env s fuel attempts code body delays).response.httpCode = 400 ∨
       (httpAttempts env s fuel attempts code body delays).response.httpCode = 401) →
      (httpAttempts env s fuel attempts code body delays).state = s := by
  intro fuel
  induction fuel with
  | zero =>
      intro a c b d h400 h401 hor
      simp only [httpAttempts] at hor
      rcases hor with h | h <;> simp_all
  | succ fuel ih =>
      intro a c b d h400 h401 hor
      simp only [httpAttempts] at hor ⊢
      split_ifs at hor ⊢ with hs ha hb
      · simp at hor
        rcases hs with h | h <;> rcases hor with h2 | h2 <;> omega
      · rfl
      · rfl
      · exact ih _ _ _ _ hb ha hor
      · exact ih _ _ _ _ hb ha hor

theorem httpAttempts_success_state (env : HttpEnv) (s : MicroSafariState) :
    ∀ fuel attempts code body delays,
      (httpAttempts env s fuel attempts code body delays).response.success = true →
      (httpAttempts env s fuel attempts code body delays).state =
        { s with lastHeartbeat :=
            env.attemptTime (httpAttempts env s fuel attempts code body delays).attempts } := by
  intro fuel
  induction fuel with
  | zero =>
      intro a c b d h
      simp [httpAttempts] at h
  | succ fuel ih =>
      intro a c b d h
      simp only [httpAttempts] at h ⊢
      split_ifs at h ⊢ <;>
        first
          | rfl
          | exact ih _ _ _ _ h

/-!
Claim theorems.
-/

/-- C1, counterexample: with one failure already recorded, a
`performHttpRequest` call whose first attempt returns HTTP 200 succeeds
yet leaves `_consecutiveFailures` at 1 — the claim that success clears the
FailureRecord as part of that call is false on the code. -/
theorem c1_success_does_not_clear_failures :
    (performHttpRequest true httpEnv200 stateOneFailure).response.success = true ∧
    ¬ (performHttpRequest true httpEnv200 stateOneFailure).state.consecutiveFailures = 0 := by
  decide

/-- C1 (amended): a successful `performHttpRequest` leaves
`_consecutiveFailures` unchanged (the success path does not clear the
FailureRecord); on any call the counter is either unchanged, incremented
by exactly one (an exhausted-retries failure below the reset threshold),
or reset to 0 because the increment reached `_maxConsecutiveFailures`.
Hence between successes the counter is monotonically non-decreasing
except for the documented threshold reset. -/
theorem c1_consecutiveFailures_evolution :
    ∀ (wifi : Bool) (env : HttpEnv) (s : MicroSafariState),
      ((performHttpRequest wifi env s).response.success = true →
        (performHttpRequest wifi env s).state.consecutiveFailures =
          s.consecutiveFailures) ∧
      ((performHttpRequest wifi env s).state.consecutiveFailures =
          s.consecutiveFailures ∨
       ((performHttpRequest wifi env s).state.consecutiveFailures =
          s.consecutiveFailures + 1 ∧
        s.consecutiveFailures + 1 < s.maxConsecutiveFailures) ∨
       ((performHttpRequest wifi env s).state.consecutiveFailures = 0 ∧
        s.maxConsecutiveFailures ≤ s.consecutiveFailures + 1)) := by
  intro wifi env s
  cases wifi with
  | false => exact ⟨fun _ => rfl, Or.inl rfl⟩
  | true => exact httpAttempts_cf env s _ _ _ _ _

/-- C1 witness: the amended theorem evaluated on a successful call made
after one earlier failure. -/
theorem c1_consecutiveFailures_evolution_witness :
    (performHttpRequest true httpEnv200 stateOneFailure).state.consecutiveFailures =
      stateOneFailure.consecutiveFailures :=
  (c1_consecutiveFailures_evolution true httpEnv200 stateOneFailure).1 (by decide)

/-- C2: with `maxRetries = 2` and HTTP 500 on every attempt, one
`performHttpRequest` call makes exactly 2 POST attempts, executes
`delay(_retryDelay)` exactly once, returns `success = false` with an
error message containing "retries exhausted", and records the failure via
`handleConnectionFailure`. -/
theorem c2_scenarioA_500_retries_exhausted :
    ∀ (env : HttpEnv) (s : MicroSafariState),
      s.maxRetries = 2 → (∀ n, env.attemptCode n = 500) →
      (performHttpRequest true env s).attempts = 2 ∧
      (performHttpRequest true env s).delays = 1 ∧
      (performHttpRequest true env s).response.success = false ∧
      (performHttpRequest true env s).response.errorMessage =
        "Server error (HTTP 500) - all retries exhausted" ∧
      strContains (performHttpRequest true env s).response.errorMessage
        "retries exhausted" = true ∧
      (performHttpRequest true env s).state =
        handleConnectionFailure s "Server error (HTTP 500) - all retries exhausted"
          env.exhaustTime := by
  intro env s hmax hcode
  have h2 : s.maxRetries.toNat = 2 := by omega
  simp [performHttpRequest, h2, httpAttempts, hcode]
  refine ⟨by decide, by decide, rfl⟩

/-- C2 witness: the theorem evaluated on the all-500 environment with a
two-retry configuration. -/
theorem c2_scenarioA_witness :
    (performHttpRequest true httpEnv500 stateTwoRetries).attempts = 2 ∧
    (performHttpRequest true httpEnv500 stateTwoRetries).delays = 1 ∧
    (performHttpRequest true httpEnv500 stateTwoRetries).response.success = false ∧
    (performHttpRequest true httpEnv500 stateTwoRetries).response.errorMessage =
      "Server error (HTTP 500) - all retries exhausted" ∧
    strContains (performHttpRequest true httpEnv500 stateTwoRetries).response.errorMessage
      "retries exhausted" = true ∧
    (performHttpRequest true httpEnv500 stateTwoRetries).state =
      handleConnectionFailure stateTwoRetries
        "Server error (HTTP 500) - all retries exhausted" httpEnv500.exhaustTime :=
  c2_scenarioA_500_retries_exhausted httpEnv500 stateTwoRetries (by decide) (fun n => rfl)

/-- C3: when the first POST attempt returns HTTP 401, `performHttpRequest`
returns after exactly 1 attempt with `success = false` and the
authentication-failure message "Authentication failed - check API key"
(whose lower-casing contains "authentication failed"), incurs no retry
delay, makes no further attempts, and leaves the state untouched —
regardless of the configured retry count. -/
theorem c3_scenarioB_auth_fatal :
    ∀ (env : HttpEnv) (s : MicroSafariState),
      1 ≤ s.maxRetries → env.attemptCode 1 = 401 →
      (performHttpRequest true env s).attempts = 1 ∧
      (performHttpRequest true env s).delays = 0 ∧
      (performHttpRequest true env s).response.success = false ∧
      (performHttpRequest true env s).response.errorMessage =
        "Authentication failed - check API key" ∧
      strContains (strLower (performHttpRequest true env s).response.errorMessage)
        "authentication failed" = true ∧
      (performHttpRequest true env s).state = s := by
  intro env s hmax hcode
  obtain ⟨k, hk⟩ : ∃ k, s.maxRetries.toNat = k + 1 := ⟨s.maxRetries.toNat - 1, by omega⟩
  simp [performHttpRequest, hk, httpAttempts, hcode]
  decide

/-- C3 witness: the theorem evaluated on the all-401 environment with the
default three-retry configuration. -/
theorem c3_scenarioB_witness :
    (performHttpRequest true httpEnv401 initialState).attempts = 1 ∧
    (performHttpRequest true httpEnv401 initialState).delays = 0 ∧
    (performHttpRequest true httpEnv401 initialState).response.success = false ∧
    (performHttpRequest true httpEnv401 initialState).response.errorMessage =
      "Authentication failed - check API key" ∧
    strContains (strLower (performHttpRequest true httpEnv401 initialState).response.errorMessage)
      "authentication failed" = true ∧
    (performHttpRequest true httpEnv401 initialState).state = initialState :=
  c3_scenarioB_auth_fatal httpEnv401 initialState (by decide) rfl

/-- C4: with `maxRetries = 3`, a transient first attempt and HTTP 201 on
the second attempt, `performHttpRequest` returns `success = true` after
exactly 2 attempts (no third attempt), and `_lastHeartbeat` is updated to
the `millis()` reading of that second, successful attempt. -/
theorem c4_scenarioC_second_attempt_success :
    ∀ (env : HttpEnv) (s : MicroSafariState),
      s.maxRetries = 3 →
      ¬ (env.attemptCode 1 = 201 ∨ env.attemptCode 1 = 200) →
      ¬ env.attemptCode 1 = 401 → ¬ env.attemptCode 1 = 400 →
      env.attemptCode 2 = 201 →
      (performHttpRequest true env s).response.success = true ∧
      (performHttpRequest true env s).attempts = 2 ∧
      (performHttpRequest true env s).state.lastHeartbeat = env.attemptTime 2 ∧
      (performHttpRequest true env s).state =
        { s with lastHeartbeat := env.attemptTime 2 } := by
  intro env s hmax h1 h1a h1b h2
  have h3 : s.maxRetries.toNat = 3 := by omega
  simp [performHttpRequest, h3, httpAttempts, h1, h1a, h1b, h2]

/-- C4 witness: the theorem evaluated on an environment whose first
attempt is a transport failure and whose second returns HTTP 201. -/
theorem c4_scenarioC_witness :
    (performHttpRequest true httpEnvRetry201 initialState).response.success = true ∧
    (performHttpRequest true httpEnvRetry201 initialState).attempts = 2 ∧
    (performHttpRequest true httpEnvRetry201 initialState).state.lastHeartbeat =
      httpEnvRetry201.attemptTime 2 ∧
    (performHttpRequest true httpEnvRetry201 initialState).state =
      { initialState with lastHeartbeat := httpEnvRetry201.attemptTime 2 } :=
  c4_scenarioC_second_attempt_success httpEnvRetry201 initialState (by decide)
    (by decide) (by decide) (by decide) (by decide)

/-- C5: `handleConnectionFailure` increments `_consecutiveFailures`,
stamps `_lastErrorTime`, stores the message; and when the incremented
count reaches `_maxConsecutiveFailures` the same call triggers
`resetConnectionState`, leaving status `MICROSAFARI_DISCONNECTED` and
`_consecutiveFailures = 0`. -/
theorem c5_handleConnectionFailure_spec :
    ∀ (s : MicroSafariState) (msg : String) (now : Nat),
      (handleConnectionFailure s msg now).lastErrorTime = now ∧
      (handleConnectionFailure s msg now).lastErrorMessage = msg ∧
      (s.consecutiveFailures + 1 < s.maxConsecutiveFailures →
        (handleConnectionFailure s msg now).consecutiveFailures =
          s.consecutiveFailures + 1 ∧
        (handleConnectionFailure s msg now).status = s.status) ∧
      (s.maxConsecutiveFailures ≤ s.consecutiveFailures + 1 →
        (handleConnectionFailure s msg now).status =
          MicroSafariStatus.MICROSAFARI_DISCONNECTED ∧
        (handleConnectionFailure s msg now).consecutiveFailures = 0) := by
  intro s msg now
  refine ⟨handleConnectionFailure_lastErrorTime .., handleConnectionFailure_lastErrorMessage ..,
    fun h => ?_, fun h => ?_⟩
  · rw [handleConnectionFailure_cf, handleConnectionFailure_status,
      if_neg (by omega), if_neg (by omega)]
    exact ⟨rfl, rfl⟩
  · rw [handleConnectionFailure_cf, handleConnectionFailure_status, if_pos h, if_pos h]
    exact ⟨rfl, rfl⟩

/-- C5 witness: the third consecutive failure with a threshold of three
triggers the reset. -/
theorem c5_handleConnectionFailure_witness :
    (handleConnectionFailure stateNearThreshold "submit failed" 777).status =
      MicroSafariStatus.MICROSAFARI_DISCONNECTED ∧
    (handleConnectionFailure stateNearThreshold "submit failed" 777).consecutiveFailures = 0 ∧
    (handleConnectionFailure stateNearThreshold "submit failed" 777).lastErrorTime = 777 ∧
    (handleConnectionFailure stateNearThreshold "submit failed" 777).lastErrorMessage =
      "submit failed" := by
  have h := c5_handleConnectionFailure_spec stateNearThreshold "submit failed" 777
  exact ⟨(h.2.2.2 (by decide)).1, (h.2.2.2 (by decide)).2, h.1, h.2.1⟩

/-- C6, counterexample: on a successful association the failure counter
IS touched — it is reset from 2 to 0 — and on a failed association the
recorded message is "WiFi connection failed (status: 1)", not
"association failed (status=1)" as the claim states. -/
theorem c6_connectWiFi_counterexample :
    ((connectWiFi wifiEnvOk stateTwoFailures).2.consecutiveFailures = 0 ∧
      ¬ (connectWiFi wifiEnvOk stateTwoFailures).2.consecutiveFailures =
          stateTwoFailures.consecutiveFailures) ∧
    ((connectWiFi wifiEnvFail stateTwoFailures).2.lastErrorMessage =
        "WiFi connection failed (status: 1)" ∧
      ¬ (connectWiFi wifiEnvFail stateTwoFailures).2.lastErrorMessage =
          "association failed (status=1)") := by
  decide

/-- C6 (amended): on successful association the status becomes
`MICROSAFARI_WIFI_CONNECTED`, `_lastErrorTime` and `_lastErrorMessage`
are unchanged, but `_consecutiveFailures` is reset to 0 (not left
untouched); on timeout exactly one failure is recorded via
`handleConnectionFailure` with message
"WiFi connection failed (status: <code>)" carrying the transport status
code, and the status becomes `MICROSAFARI_ERROR` unless that recorded
failure reaches the reset threshold, in which case the triggered reset
leaves it `MICROSAFARI_DISCONNECTED`. -/
theorem c6_connectWiFi_spec :
    ∀ (env : WifiEnv) (s : MicroSafariState),
      (env.connects = true →
        (connectWiFi env s).1 = true ∧
        (connectWiFi env s).2.status = MicroSafariStatus.MICROSAFARI_WIFI_CONNECTED ∧
        (connectWiFi env s).2.lastErrorTime = s.lastErrorTime ∧
        (connectWiFi env s).2.lastErrorMessage = s.lastErrorMessage ∧
        (0 ≤ s.consecutiveFailures → (connectWiFi env s).2.consecutiveFailures = 0)) ∧
      (env.connects = false →
        (connectWiFi env s).1 = false ∧
        (connectWiFi env s).2 =
          handleConnectionFailure
            { s with status := MicroSafariStatus.MICROSAFARI_ERROR
                     lastConnectionAttempt := env.startTime }
            ("WiFi connection failed (status: " ++ toString env.statusCode ++ ")")
            env.failTime ∧
        (connectWiFi env s).2.lastErrorMessage =
          "WiFi connection failed (status: " ++ toString env.statusCode ++ ")" ∧
        (s.consecutiveFailures + 1 < s.maxConsecutiveFailures →
          (connectWiFi env s).2.status = MicroSafariStatus.MICROSAFARI_ERROR) ∧
        (s.maxConsecutiveFailures ≤ s.consecutiveFailures + 1 →
          (connectWiFi env s).2.status =
            MicroSafariStatus.MICROSAFARI_DISCONNECTED)) := by
  intro env s
  constructor
  · intro h
    simp only [connectWiFi, h]
    split_ifs with hcf <;>
      first
        | exact ⟨rfl, rfl, rfl, rfl, fun _ => rfl⟩
        | exact ⟨rfl, rfl, rfl, rfl, fun h0 => by simp; omega⟩
  · intro h
    simp only [connectWiFi, h]
    rw [if_neg (by simp)]
    refine ⟨rfl, rfl, handleConnectionFailure_lastErrorMessage .., fun hlt => ?_, fun hge => ?_⟩
    · rw [handleConnectionFailure_status]
      show (if s.maxConsecutiveFailures ≤ s.consecutiveFailures + 1 then
          MicroSafariStatus.MICROSAFARI_DISCONNECTED
        else MicroSafariStatus.MICROSAFARI_ERROR) = MicroSafariStatus.MICROSAFARI_ERROR
      rw [if_neg (by omega)]
    · rw [handleConnectionFailure_status]
      show (if s.maxConsecutiveFailures ≤ s.consecutiveFailures + 1 then
          MicroSafariStatus.MICROSAFARI_DISCONNECTED
        else MicroSafariStatus.MICROSAFARI_ERROR) =
          MicroSafariStatus.MICROSAFARI_DISCONNECTED
      rw [if_pos (by omega)]

/-- C6 witness: the amended theorem evaluated on a successful association
after two failures and on a failed association reporting status 1. -/
theorem c6_connectWiFi_spec_witness :
    (connectWiFi wifiEnvOk stateTwoFailures).2.status =
      MicroSafariStatus.MICROSAFARI_WIFI_CONNECTED ∧
    (connectWiFi wifiEnvOk stateTwoFailures).2.consecutiveFailures = 0 ∧
    (connectWiFi wifiEnvFail stateTwoFailures).2.lastErrorMessage =
      "WiFi connection failed (status: " ++ toString wifiEnvFail.statusCode ++ ")" := by
  refine ⟨((c6_connectWiFi_spec wifiEnvOk stateTwoFailures).1 rfl).2.1,
    ((c6_connectWiFi_spec wifiEnvOk stateTwoFailures).1 rfl).2.2.2.2 (by decide),
    ((c6_connectWiFi_spec wifiEnvFail stateTwoFailures).2 rfl).2.2.1⟩

/-- C7, counterexample: with auto-reconnect disabled, WiFi down, status
Disconnected and 30001 ms since the last connection attempt, a single
`loop()` call still makes a reconnection attempt — the fixed-interval
reconnect site (lines 542-547) ignores both the auto-reconnect flag and
the failure-scaled backoff window, contradicting the claim that loop()
never calls connect when auto-reconnect is disabled. -/
theorem c7_loop_reconnect_counterexample :
    (loop loopEnvLate false stateNoAutoReconnect).connectCalls = 1 ∧
    stateNoAutoReconnect.autoReconnect = false ∧
    (loop loopEnvLate false stateNoAutoReconnect).block1Called = true := by
  decide

/-- C7 (amended): `loop()` has two reconnect sites.  The first fires
exactly when WiFi is not connected, status ≠ `MICROSAFARI_WIFI_CONNECTING`
and more than 30000 ms elapsed since `_lastConnectionAttempt` — regardless
of the auto-reconnect flag and without the failure-scaled backoff.  Only
the second site (backoff window `30000 + consecutiveFailures × 10000`)
requires auto-reconnect to be enabled.  No reconnection happens while WiFi
is connected, and the total number of `connectWiFi` calls in one `loop()`
is the sum of the two sites' firings. -/
theorem c7_loop_reconnect_spec :
    ∀ (env : LoopEnv) (wifi0 : Bool) (s : MicroSafariState),
      ((loop env wifi0 s).block1Called = true ↔
        (wifi0 = false ∧ s.status ≠ MicroSafariStatus.MICROSAFARI_WIFI_CONNECTING ∧
          30000 < elapsed env.now1 s.lastConnectionAttempt)) ∧
      ((loop env wifi0 s).block3Called = true → s.autoReconnect = true) ∧
      (wifi0 = true → (loop env wifi0 s).connectCalls = 0) ∧
      ((loop env wifi0 s).connectCalls =
        (if (loop env wifi0 s).block1Called = true then 1 else 0) +
        (if (loop env wifi0 s).block3Called = true then 1 else 0)) := by
  intro env wifi0 s
  refine ⟨?_, ?_, ?_, ?_⟩
  · simp only [loop]
    rw [loopAutoReconnect_b1]
    exact loopReconnectCheck_block1_iff env wifi0 s
  · simp only [loop]
    intro h
    have h2 := (loopAutoReconnect_b3 _ _ _ _ h).1
    rw [loopHeartbeatStep_autoReconnect, loopStatusUpdate_autoReconnect,
      loopReconnectCheck_autoReconnect] at h2
    exact h2
  · intro hw0
    subst hw0
    simp only [loop]
    have hwifi := loopReconnectCheck_wifi_true env s
    have hb1 : (loopReconnectCheck env true s).block1Called = false := by
      cases hbc : (loopReconnectCheck env true s).block1Called with
      | false => rfl
      | true =>
          have hcontra := ((loopReconnectCheck_block1_iff env true s).mp hbc).1
          simp at hcontra
    have hb3 : ∀ (b1 : Bool) (st : MicroSafariState),
        (loopAutoReconnect env (loopReconnectCheck env true s).wifi b1 st).block3Called =
          false := by
      intro b1 st
      cases hbc : (loopAutoReconnect env (loopReconnectCheck env true s).wifi b1
          st).block3Called with
      | false => rfl
      | true =>
          have h2 := (loopAutoReconnect_b3 _ _ _ _ hbc).2
          rw [hwifi] at h2
          simp at h2
    rw [loopAutoReconnect_calls, hb1, hb3]
    simp
  · simp only [loop]
    simp only [loopAutoReconnect_calls, loopAutoReconnect_b1]

/-- C7 witness: the amended theorem evaluated with WiFi connected (no
reconnect attempt) and on the counterexample environment (the first site
fires). -/
theorem c7_loop_reconnect_spec_witness :
    (loop loopEnvLate true initialState).connectCalls = 0 ∧
    (loop loopEnvLate false stateNoAutoReconnect).block1Called = true :=
  ⟨(c7_loop_reconnect_spec loopEnvLate true initialState).2.2.1 rfl,
   (c7_loop_reconnect_spec loopEnvLate false stateNoAutoReconnect).1.mpr
     ⟨rfl, by decide, by decide⟩⟩

/-- C8: `validateJsonPayload` is a pure function of the document (and of
the external JSON collaborator's parse): it rejects the empty string,
rejects any document the collaborator cannot parse, rejects any parsed
document lacking the top-level "payload" member, and accepts every
nonempty document parsing to a structure that contains the member — in
particular the document consisting of an empty object under the
"payload" key. -/
theorem c8_validateJsonPayload_spec :
    ∀ (parse : String → Option JsonVal) (doc : String),
      (doc = "" → validateJsonPayload parse doc = false) ∧
      (parse doc = none → validateJsonPayload parse doc = false) ∧
      (∀ d, parse doc = some d → jsonContainsKey d "payload" = false →
        validateJsonPayload parse doc = false) ∧
      (∀ d, ¬ doc = "" → parse doc = some d → jsonContainsKey d "payload" = true →
        validateJsonPayload parse doc = true) := by
  intro parse doc
  refine ⟨fun h => ?_, fun h => ?_, fun d hd hk => ?_, fun d hne hd hk => ?_⟩
  · subst h; rfl
  · simp [validateJsonPayload, h]
  · simp [validateJsonPayload, hd, hk]
  · have hem : doc.isEmpty = false := by
      cases hq : doc.isEmpty
      · rfl
      · exact absurd ((String.isEmpty_iff doc).mp hq) hne
    simp [validateJsonPayload, hem, hd, hk]

/-- C8 witness: the theorem evaluated through the concrete `miniParse`
collaborator on the four boundary documents. -/
theorem c8_validateJsonPayload_witness :
    validateJsonPayload miniParse "" = false ∧
    validateJsonPayload miniParse "not json" = false ∧
    validateJsonPayload miniParse "\x7b\"other\":1\x7d" = false ∧
    validateJsonPayload miniParse "\x7b\"payload\":\x7b\x7d\x7d" = true := by
  refine ⟨(c8_validateJsonPayload_spec miniParse "").1 rfl,
    (c8_validateJsonPayload_spec miniParse "not json").2.1 rfl,
    (c8_validateJsonPayload_spec miniParse "\x7b\"other\":1\x7d").2.2.1
      (JsonVal.obj [("other", JsonVal.num 1)]) rfl rfl,
    (c8_validateJsonPayload_spec miniParse "\x7b\"payload\":\x7b\x7d\x7d").2.2.2
      (JsonVal.obj [("payload", JsonVal.obj [])]) (by decide) rfl rfl⟩

/-- Helper: the heartbeat-due predicate is false whenever no more than a
full interval has elapsed. -/
theorem needsHeartbeat_false_of (s : MicroSafariState) (t : Nat)
    (h1 : s.lastHeartbeat ≤ t) (h2 : t < U32)
    (h3 : t - s.lastHeartbeat ≤ s.heartbeatInterval) :
    needsHeartbeat s t = false := by
  have hU : U32 = 4294967296 := by norm_num [U32]
  rw [hU] at h2
  simp only [needsHeartbeat, elapsed, hU, decide_eq_false_iff_not]
  omega

/-- C9: `needsHeartbeat` is true exactly when `now - _lastHeartbeat`
strictly exceeds `_heartbeatInterval` (with the 300000 ms default it is
false at elapsed 250000 ms and at exactly 300000 ms, true at 300001 ms),
and every successful `performHttpRequest` sets `_lastHeartbeat` to the
`millis()` reading of the successful attempt, so the predicate is false
again for a full new interval after any successful submission. -/
theorem c9_needsHeartbeat_spec :
    (∀ (s : MicroSafariState) (now : Nat), s.lastHeartbeat ≤ now → now < U32 →
      (needsHeartbeat s now = true ↔ s.heartbeatInterval < now - s.lastHeartbeat)) ∧
    (∀ (wifi : Bool) (env : HttpEnv) (s : MicroSafariState),
      (performHttpRequest wifi env s).response.success = true →
      (performHttpRequest wifi env s).state.lastHeartbeat =
        env.attemptTime (performHttpRequest wifi env s).attempts ∧
      (∀ t, (performHttpRequest wifi env s).state.lastHeartbeat ≤ t → t < U32 →
        t - (performHttpRequest wifi env s).state.lastHeartbeat ≤ s.heartbeatInterval →
        needsHeartbeat (performHttpRequest wifi env s).state t = false)) := by
  constructor
  · intro s now h1 h2
    have hU : U32 = 4294967296 := by norm_num [U32]
    rw [hU] at h2
    simp only [needsHeartbeat, elapsed, hU, decide_eq_true_eq]
    have hm : (4294967296 + now - s.lastHeartbeat) % 4294967296 = now - s.lastHeartbeat := by
      omega
    rw [hm]
  · intro wifi env s h
    cases wifi with
    | false => simp [performHttpRequest] at h
    | true =>
        have hst2 : (performHttpRequest true env s).state =
            { s with lastHeartbeat :=
                env.attemptTime (performHttpRequest true env s).attempts } :=
          httpAttempts_success_state env s s.maxRetries.toNat 0 0 "" 0 h
        refine ⟨by rw [hst2], ?_⟩
        intro t ht1 ht2 ht3
        rw [hst2] at ht1 ht3 ⊢
        exact needsHeartbeat_false_of _ t ht1 ht2 ht3

/-- C9 witness: the theorem evaluated at the default 300000 ms interval
and after a successful submission at time 5555. -/
theorem c9_needsHeartbeat_witness :
    needsHeartbeat initialState 250000 = false ∧
    needsHeartbeat initialState 300000 = false ∧
    needsHeartbeat initialState 300001 = true ∧
    needsHeartbeat (performHttpRequest true httpEnv200 initialState).state 300000 = false := by
  have h1 := c9_needsHeartbeat_spec.1 initialState 250000 (by decide) (by norm_num [U32])
  have h2 := c9_needsHeartbeat_spec.1 initialState 300000 (by decide) (by norm_num [U32])
  have h3 := c9_needsHeartbeat_spec.1 initialState 300001 (by decide) (by norm_num [U32])
  refine ⟨?_, ?_, h3.mpr (by decide), ?_⟩
  · cases hb : needsHeartbeat initialState 250000 with
    | false => rfl
    | true => exact absurd (h1.mp hb) (by decide)
  · cases hb : needsHeartbeat initialState 300000 with
    | false => rfl
    | true => exact absurd (h2.mp hb) (by decide)
  · exact (c9_needsHeartbeat_spec.2 true httpEnv200 initialState (by decide)).2 300000
      (by decide) (by norm_num [U32]) (by decide)

/-- C10: a `performHttpRequest` call that ends with a fatal HTTP 400 or
401 response returns without invoking `handleConnectionFailure`: the
whole state — in particular `_consecutiveFailures`, `_lastErrorTime` and
`_lastErrorMessage` — is left unchanged, so repeated 400/401 failures
never advance toward the consecutive-failure reset threshold. -/
theorem c10_fatal_frame :
    ∀ (wifi : Bool) (env : HttpEnv) (s : MicroSafariState),
      ((performHttpRequest wifi env s).response.httpCode = 400 ∨
       (performHttpRequest wifi env s).response.httpCode = 401) →
      (performHttpRequest wifi env s).state = s ∧
      (performHttpRequest wifi env s).state.consecutiveFailures = s.consecutiveFailures ∧
      (performHttpRequest wifi env s).state.lastErrorTime = s.lastErrorTime ∧
      (performHttpRequest wifi env s).state.lastErrorMessage = s.lastErrorMessage := by
  intro wifi env s hor
  have hs : (performHttpRequest wifi env s).state = s := by
    cases wifi with
    | false => rfl
    | true => exact httpAttempts_fatal_state env s _ _ _ _ _ (by decide) (by decide) hor
  exact ⟨hs, by rw [hs], by rw [hs], by rw [hs]⟩

/-- C10 witness: the theorem evaluated on an all-400 environment starting
from a state with one recorded failure. -/
theorem c10_fatal_frame_witness :
    (performHttpRequest true httpEnv400 stateOneFailure).state = stateOneFailure :=
  (c10_fatal_frame true httpEnv400 stateOneFailure (by decide)).1
